import Mathlib

/-
Shallow embedding of src/server.js (youtube-batch-downloader Express server).

The embedded operations:
  - runYtDlp        : the Job Runner (spawn yt-dlp, capture streams, scan the
                      downloads directory for files prefixed by the job id,
                      choose the largest candidate, build the outcome record);
  - processFrom /
    processLinks    : the sequential per-link loop of the POST /api/download
                      handler (push a transient started record, run the job,
                      overwrite the record with the terminal form);
  - apiDownload     : the whole handler body (coerce the links field to
                      strings, drop falsy entries, reject empty / oversized
                      batches with HTTP 400, otherwise process sequentially).

External effects are passed in explicitly: for each job, a JobEnv carries the
generated uuid, whether the spawn call errored (and with which message), the
exit code, the captured stdout/stderr text, and the directory listing (with
file sizes) observed after the process closed; dir = none models a thrown
filesystem error, which the source swallows.
-/

namespace Downloader

/-- One entry of the request body's links array, before String(...) coercion. -/
inductive JsVal where
  | vstr (s : String)
  | vnum (n : Int)
  | vbool (b : Bool)
  | vnull
  | vundef
deriving DecidableEq

/-- The String(x) coercion applied by links.map(String). -/
def jsToString : JsVal → String
  | .vstr s => s
  | .vnum n => toString n
  | .vbool b => if b then "true" else "false"
  | .vnull => "null"
  | .vundef => "undefined"

/-- List-of-chars version of startsWith (first argument is the pattern). -/
def startsWithCL : List Char → List Char → Bool
  | [], _ => true
  | _ :: _, [] => false
  | p :: ps, c :: cs => p == c && startsWithCL ps cs

/-- Substring containment on lists of chars (first argument is the pattern). -/
def containsCL (pat : List Char) : List Char → Bool
  | [] => startsWithCL pat []
  | c :: cs => startsWithCL pat (c :: cs) || containsCL pat cs

/-- f.startsWith(pre) of JS, on the underlying character lists. -/
def strStarts (s pre : String) : Bool := startsWithCL pre.data s.data

/-- f.endsWith(suf) of JS, on the underlying character lists. -/
def strEnds (s suf : String) : Bool := startsWithCL suf.data.reverse s.data.reverse

/-- The superficial platform-shape check /youtu/i.test(link). -/
def hasYoutu (s : String) : Bool := containsCL "youtu".data (s.data.map Char.toLower)

/-- Characters encodeURIComponent leaves unescaped:
A-Z a-z 0-9 - _ . ! ~ * apostrophe ( ). -/
def isUnreservedURI (c : Char) : Bool :=
  let n := c.toNat
  (65 ≤ n && n ≤ 90) || (97 ≤ n && n ≤ 122) || (48 ≤ n && n ≤ 57) ||
    n == 45 || n == 95 || n == 46 || n == 33 || n == 126 ||
    n == 42 || n == 39 || n == 40 || n == 41

/-- Uppercase hex digit for a value below 16. -/
def hexDigitU (n : Nat) : Char :=
  if n < 10 then Char.ofNat (48 + n) else Char.ofNat (55 + n)

/-- UTF-8 byte sequence of one code point. -/
def utf8BytesOf (c : Char) : List Nat :=
  let n := c.toNat
  if n < 128 then [n]
  else if n < 2048 then [192 + n / 64, 128 + n % 64]
  else if n < 65536 then [224 + n / 4096, 128 + n / 64 % 64, 128 + n % 64]
  else [240 + n / 262144, 128 + n / 4096 % 64, 128 + n / 64 % 64, 128 + n % 64]

/-- Percent-escape of one byte, uppercase hex. -/
def pctByte (b : Nat) : List Char :=
  [Char.ofNat 37, hexDigitU (b / 16), hexDigitU (b % 16)]

/-- The encodeURIComponent function of JS. -/
def encodeURIComponent (s : String) : String :=
  String.mk (s.data.flatMap fun c =>
    if isUnreservedURI c then [c] else (utf8BytesOf c).flatMap pctByte)

/-- External behaviour observed by one runYtDlp invocation: the generated
uuid, whether spawn errored (with err.message, the empty string modelling a
falsy message), the close-event exit code, the accumulated stdout/stderr
buffers, and the downloads-directory listing (filename, size in bytes) seen
after close; dir = none models a filesystem error thrown while scanning,
which the source catches and ignores. -/
structure JobEnv where
  jobId : String
  spawnErr : Option String
  exitCode : Int
  stdout : String
  stderr : String
  dir : Option (List (String × Nat))
deriving DecidableEq

/-- The object runYtDlp resolves with. An absent JS property (err on the
close path, exitCode and filename on the spawn-error path) is none; the
filename property is also none when it is null. -/
structure JobOutcome where
  ok : Bool
  err : Option String
  exitCode : Option Int
  filename : Option String
  stdout : String
  stderr : String
deriving DecidableEq

/-- files.filter(f such that f.startsWith(jobId + " - ") and not
f.endsWith(".part")), keeping each file's size alongside its name. -/
def candidatesOf (jobId : String) (files : List (String × Nat)) : List (String × Nat) :=
  files.filter fun fe => strStarts fe.1 (jobId ++ " - ") && !(strEnds fe.1 ".part")

/-- candidates.sort((a,b) with sb - sa)[0] of the source: the stable
descending sort by size puts the first maximal-size candidate at index 0. -/
def selectLargest : List (String × Nat) → Option (String × Nat)
  | [] => none
  | x :: xs =>
    match selectLargest xs with
    | none => some x
    | some b => if b.2 > x.2 then some b else some x

/-- The whole try/catch block computing the found filename: none when the
listing errored or no candidate survives the filters. -/
def findCandidate (jobId : String) (dir : Option (List (String × Nat))) : Option String :=
  match dir with
  | none => none
  | some files => (selectLargest (candidatesOf jobId files)).map Prod.fst

/-- runYtDlp(link): first component is the object the promise resolves with,
second counts directory scans performed. The promise settles at the first
resolve call: on a spawn error that is the error-event object. The close
event still fires afterwards (on POSIX, a failed exec emits error and then
close), and its handler unconditionally runs the readdirSync scan before its
resolve call is discarded, so one scan is performed on both paths. -/
def runYtDlp (e : JobEnv) : JobOutcome × Nat :=
  match e.spawnErr with
  | some m =>
    ({ ok := false, err := some (if m == "" then "yt-dlp spawn error" else m),
       exitCode := none, filename := none, stdout := e.stdout, stderr := e.stderr }, 1)
  | none =>
    let found := findCandidate e.jobId e.dir
    ({ ok := (e.exitCode == 0) && found.isSome, err := none,
       exitCode := some e.exitCode,
       filename := found.map (fun f => "/downloads/" ++ encodeURIComponent f),
       stdout := e.stdout, stderr := e.stderr }, 1)

/-- Rendering of r.exitCode inside a JS template literal. -/
def exitCodeText : Option Int → String
  | some c => toString c
  | none => "undefined"

/-- r.stderr or-else r.stdout or-else the exitCode template text (JS truthiness:
only the empty string is falsy). -/
def errText (r : JobOutcome) : String :=
  if r.stderr == "" then
    (if r.stdout == "" then "exitCode " ++ exitCodeText r.exitCode else r.stdout)
  else r.stderr

/-- The per-link records the handler pushes into results. The file field of
okFile keeps the JS value of r.filename (an Option, null being none). -/
inductive LinkResult where
  | invalid (link message : String)
  | started (link : String)
  | okFile (link : String) (file : Option String)
  | failed (link error : String)
deriving DecidableEq

/-- The link property shared by every record form. -/
def LinkResult.linkOf : LinkResult → String
  | .invalid l _ => l
  | .started l => l
  | .okFile l _ => l
  | .failed l _ => l

/-- Whether a record is the transient started form. -/
def LinkResult.isStarted : LinkResult → Bool
  | .started _ => true
  | _ => false

/-- The terminal record one loop iteration produces for a link, given that
link's job environment. -/
def resultOf (link : String) (e : JobEnv) : LinkResult :=
  if hasYoutu link then
    let r := (runYtDlp e).1
    if r.ok then .okFile link r.filename else .failed link (errText r)
  else .invalid link "Basic validation failed: not a YouTube link"

/-- The handler's for-loop over links, mirroring the push of a started record
followed by overwriting results[results.length - 1] with the terminal form.
The Nat argument and result thread the number of subprocesses spawned. -/
def processFrom (envs : Nat → JobEnv) :
    List String → Nat → List LinkResult → Nat → List LinkResult × Nat
  | [], _, results, spawned => (results, spawned)
  | link :: rest, i, results, spawned =>
    if hasYoutu link then
      let results1 := results ++ [LinkResult.started link]
      let r := (runYtDlp (envs i)).1
      let term := if r.ok then LinkResult.okFile link r.filename
                  else LinkResult.failed link (errText r)
      processFrom envs rest (i + 1) (results1.set (results1.length - 1) term) (spawned + 1)
    else
      processFrom envs rest (i + 1)
        (results ++ [LinkResult.invalid link "Basic validation failed: not a YouTube link"])
        spawned

/-- The loop started on the validated links list, with empty accumulators. -/
def processLinks (links : List String) (envs : Nat → JobEnv) : List LinkResult × Nat :=
  processFrom envs links 0 [] 0

/-- The HTTP response of POST /api/download. -/
structure HttpResponse where
  status : Nat
  message : Option String
  results : Option (List LinkResult)
deriving DecidableEq

/-- Response plus the number of subprocesses the request spawned. -/
structure ServerTrace where
  resp : HttpResponse
  spawns : Nat
deriving DecidableEq

/-- Array.isArray(req.body.links) question-mark req.body.links.map(String).filter(Boolean)
colon []; body = none models a missing or non-array links field. -/
def effLinks (body : Option (List JsVal)) : List String :=
  ((body.getD []).map jsToString).filter fun s => !(s == "")

/-- The POST /api/download handler body. -/
def apiDownload (body : Option (List JsVal)) (envs : Nat → JobEnv) : ServerTrace :=
  let links := effLinks body
  if links.length = 0 then
    ⟨⟨400, some "Provide an array of youtube links in \"links\"", none⟩, 0⟩
  else if 15 < links.length then
    ⟨⟨400, some "Max 15 links at once", none⟩, 0⟩
  else
    let b := processLinks links envs
    ⟨⟨200, none, some b.1⟩, b.2⟩

/-- Specification form of the loop result: one terminal record per link. -/
def resultsSpec (envs : Nat → JobEnv) : List String → Nat → List LinkResult
  | [], _ => []
  | link :: rest, i => resultOf link (envs i) :: resultsSpec envs rest (i + 1)

/-- Number of subprocess spawns the loop performs on a links list. -/
def spawnsSpec : List String → Nat
  | [] => 0
  | link :: rest => (if hasYoutu link then 1 else 0) + spawnsSpec rest

/-- Concrete job environment: download succeeded but left no file. -/
def envOk : JobEnv :=
  { jobId := "j0", spawnErr := none, exitCode := 0,
    stdout := "", stderr := "", dir := some [] }

/-- Concrete environment assignment giving every job envOk. -/
def envs0 : Nat → JobEnv := fun _ => envOk

/-- Concrete job environment: two complete candidates of differing sizes, an
unrelated file, and a bigger but partial candidate. -/
def envC2 : JobEnv :=
  { jobId := "j", spawnErr := none, exitCode := 0, stdout := "", stderr := "",
    dir := some [("j - a.mp4", 5), ("j - b.mp4", 9), ("other.mp4", 3),
      ("j - c.mp4.part", 99)] }

/-- The directory listing inside envC2. -/
def filesC2 : List (String × Nat) :=
  [("j - a.mp4", 5), ("j - b.mp4", 9), ("other.mp4", 3), ("j - c.mp4.part", 99)]

/-- Concrete job environment: the only identifier-prefixed file is partial. -/
def envC3 : JobEnv :=
  { jobId := "j", spawnErr := none, exitCode := 0, stdout := "", stderr := "",
    dir := some [("j - a.mp4.part", 50), ("zzz.mp4", 1)] }

/-- The directory listing inside envC3. -/
def filesC3 : List (String × Nat) := [("j - a.mp4.part", 50), ("zzz.mp4", 1)]

/-- Concrete job environment: the spawn call failed (tool not on PATH), so
both stream buffers stayed empty; no close event. -/
def envC5 : JobEnv :=
  { jobId := "j1", spawnErr := some "spawn yt-dlp ENOENT", exitCode := 0,
    stdout := "", stderr := "", dir := some [] }

/-- Concrete job environment: nonzero exit with text on stderr only. -/
def envC6 : JobEnv :=
  { jobId := "j6", spawnErr := none, exitCode := 1,
    stdout := "", stderr := "boom", dir := some [] }

/-- Concrete job environment: nonzero exit with text on both streams. -/
def envC9 : JobEnv :=
  { jobId := "j9", spawnErr := none, exitCode := 1,
    stdout := "OUT", stderr := "ERR", dir := some [] }

/-- Request body with 16 nonempty links (rejected as oversized). -/
def body16plus : Option (List JsVal) :=
  some (List.replicate 16 (JsVal.vstr "https://youtu.be/a"))

/-- Request body with 16 entries of which one is the empty string, so the
effective links list has 15 entries and the batch is accepted. -/
def body16 : Option (List JsVal) :=
  some (JsVal.vstr "" :: List.replicate 15 (JsVal.vstr "https://youtu.be/a"))

lemma selectLargest_cons (x : String × Nat) (xs : List (String × Nat)) :
    ∃ b, selectLargest (x :: xs) = some b := by
  cases h : selectLargest xs with
  | none => exact ⟨x, by simp [selectLargest, h]⟩
  | some b =>
    by_cases hb : b.2 > x.2
    · exact ⟨b, by simp [selectLargest, h, hb]⟩
    · exact ⟨x, by simp [selectLargest, h, hb]⟩

lemma selectLargest_mem (l : List (String × Nat)) :
    ∀ b, selectLargest l = some b → b ∈ l := by
  induction l with
  | nil => intro b h; simp [selectLargest] at h
  | cons x xs ih =>
    intro b h
    cases hx : selectLargest xs with
    | none =>
      simp only [selectLargest, hx] at h
      injection h with h
      exact h ▸ List.mem_cons_self x xs
    | some a =>
      simp only [selectLargest, hx] at h
      by_cases hb : a.2 > x.2
      · rw [if_pos hb] at h
        injection h with h
        exact List.mem_cons_of_mem x (h ▸ ih a hx)
      · rw [if_neg hb] at h
        injection h with h
        exact h ▸ List.mem_cons_self x xs

lemma selectLargest_le (l : List (String × Nat)) :
    ∀ b, selectLargest l = some b → ∀ c ∈ l, c.2 ≤ b.2 := by
  induction l with
  | nil => intro b h; simp [selectLargest] at h
  | cons x xs ih =>
    intro b h c hc
    cases hx : selectLargest xs with
    | none =>
      simp only [selectLargest, hx] at h
      injection h with h
      subst h
      have hxs : xs = [] := by
        cases xs with
        | nil => rfl
        | cons y ys =>
          obtain ⟨a, ha⟩ := selectLargest_cons y ys
          rw [ha] at hx
          cases hx
      subst hxs
      have := List.mem_singleton.mp hc
      subst this
      exact Nat.le_refl _
    | some a =>
      simp only [selectLargest, hx] at h
      by_cases hb : a.2 > x.2
      · rw [if_pos hb] at h
        injection h with h
        subst h
        rcases List.mem_cons.mp hc with rfl | hc'
        · exact Nat.le_of_lt hb
        · exact ih a hx c hc'
      · rw [if_neg hb] at h
        injection h with h
        subst h
        rcases List.mem_cons.mp hc with rfl | hc'
        · exact Nat.le_refl _
        · exact Nat.le_trans (ih a hx c hc') (Nat.le_of_not_lt hb)

lemma candidatesOf_ne_nil (jobId : String) (files : List (String × Nat)) :
    candidatesOf jobId files ≠ [] ↔
      ∃ fe ∈ files, strStarts fe.1 (jobId ++ " - ") = true ∧
        strEnds fe.1 ".part" = false := by
  constructor
  · intro h
    cases hc : candidatesOf jobId files with
    | nil => exact absurd hc h
    | cons fe rest =>
      have hfe : fe ∈ candidatesOf jobId files := hc ▸ List.mem_cons_self fe rest
      have := List.mem_filter.mp hfe
      refine ⟨fe, this.1, ?_⟩
      have hp := this.2
      simp only [Bool.and_eq_true, Bool.not_eq_true'] at hp
      exact hp
  · rintro ⟨fe, hmem, hstart, hend⟩ hnil
    have hfe : fe ∈ candidatesOf jobId files := by
      refine List.mem_filter.mpr ⟨hmem, ?_⟩
      simp [hstart, hend]
    rw [hnil] at hfe
    cases hfe

lemma findCandidate_isSome (jobId : String) (dir : Option (List (String × Nat))) :
    (findCandidate jobId dir).isSome = true ↔
      ∃ files, dir = some files ∧ ∃ fe ∈ files,
        strStarts fe.1 (jobId ++ " - ") = true ∧ strEnds fe.1 ".part" = false := by
  cases dir with
  | none => simp [findCandidate]
  | some files =>
    constructor
    · intro h
      refine ⟨files, rfl, (candidatesOf_ne_nil jobId files).mp ?_⟩
      intro hnil
      simp [findCandidate, hnil, selectLargest] at h
    · rintro ⟨files2, hf, hne⟩
      have heq : files = files2 := by injection hf
      subst heq
      rw [← candidatesOf_ne_nil] at hne
      cases hc : candidatesOf jobId files with
      | nil => exact absurd hc hne
      | cons x xs =>
        obtain ⟨b, hb⟩ := selectLargest_cons x xs
        simp [findCandidate, hc, hb]

lemma set_concat {α : Type} (l : List α) (a b : α) :
    (l ++ [a]).set l.length b = l ++ [b] := by
  induction l with
  | nil => rfl
  | cons x xs ih => simp [ih]

lemma processFrom_eq (envs : Nat → JobEnv) (links : List String) :
    ∀ (i : Nat) (acc : List LinkResult) (c : Nat),
      processFrom envs links i acc c =
        (acc ++ resultsSpec envs links i, c + spawnsSpec links) := by
  induction links with
  | nil => intro i acc c; simp [processFrom, resultsSpec, spawnsSpec]
  | cons link rest ih =>
    intro i acc c
    cases hl : hasYoutu link with
    | true =>
      simp only [processFrom, hl, ↓reduceIte]
      rw [ih]
      have hlen : (acc ++ [LinkResult.started link]).length - 1 = acc.length := by simp
      rw [hlen, set_concat, Prod.mk.injEq]
      refine ⟨?_, ?_⟩
      · simp [resultsSpec, resultOf, hl, List.append_assoc]
      · simp only [spawnsSpec, hl, ↓reduceIte]
        omega
    | false =>
      simp only [processFrom, hl, Bool.false_eq_true, ↓reduceIte]
      rw [ih, Prod.mk.injEq]
      refine ⟨?_, ?_⟩
      · simp [resultsSpec, resultOf, hl, List.append_assoc]
      · simp [spawnsSpec, hl]

lemma resultsSpec_length (envs : Nat → JobEnv) (links : List String) :
    ∀ i, (resultsSpec envs links i).length = links.length := by
  induction links with
  | nil => intro i; rfl
  | cons link rest ih => intro i; simp [resultsSpec, ih]

lemma resultsSpec_get (envs : Nat → JobEnv) (links : List String) :
    ∀ s i, (resultsSpec envs links s).get? i =
      (links.get? i).map fun link => resultOf link (envs (s + i)) := by
  induction links with
  | nil => intro s i; simp [resultsSpec]
  | cons link rest ih =>
    intro s i
    cases i with
    | zero => simp [resultsSpec]
    | succ n =>
      simp only [resultsSpec, List.get?_cons_succ]
      rw [ih (s + 1) n]
      have : s + 1 + n = s + (n + 1) := by omega
      rw [this]

lemma resultOf_linkOf (link : String) (e : JobEnv) :
    (resultOf link e).linkOf = link := by
  by_cases hl : hasYoutu link
  · by_cases hr : ((runYtDlp e).1).ok <;>
      simp [resultOf, hl, hr, LinkResult.linkOf]
  · simp [resultOf, hl, LinkResult.linkOf]

lemma resultOf_not_started (link : String) (e : JobEnv) :
    (resultOf link e).isStarted = false := by
  by_cases hl : hasYoutu link
  · by_cases hr : ((runYtDlp e).1).ok <;>
      simp [resultOf, hl, hr, LinkResult.isStarted]
  · simp [resultOf, hl, LinkResult.isStarted]

/-- C1: the outcome's ok flag is true exactly when the spawn did not error,
the subprocess exited with code 0, and the directory scan succeeded and
contained at least one file carrying the job's identifier prefix and not
ending in the .part suffix; in particular exit code 0 with no discoverable
file yields ok = false. -/
theorem success_iff_exit_zero_and_file_found (e : JobEnv) :
    ((runYtDlp e).1).ok = true ↔
      e.spawnErr = none ∧ e.exitCode = 0 ∧
        ∃ files, e.dir = some files ∧ ∃ fe ∈ files,
          strStarts fe.1 (e.jobId ++ " - ") = true ∧
          strEnds fe.1 ".part" = false := by
  cases hs : e.spawnErr with
  | some m => simp [runYtDlp, hs]
  | none =>
    simp only [runYtDlp, hs, Bool.and_eq_true, beq_iff_eq, true_and]
    rw [findCandidate_isSome]

/-- C2: when the spawn succeeded, the exit code is 0 and at least one
candidate file exists, the outcome is ok and its filename is the public
downloads path of the percent-encoded name of a candidate of maximal size;
when exactly one candidate exists, it is that candidate. -/
theorem largest_candidate_selected (e : JobEnv) (files : List (String × Nat))
    (h1 : e.spawnErr = none) (h2 : e.exitCode = 0) (h3 : e.dir = some files)
    (h4 : candidatesOf e.jobId files ≠ []) :
    ∃ b ∈ candidatesOf e.jobId files,
      (∀ c ∈ candidatesOf e.jobId files, c.2 ≤ b.2) ∧
      ((runYtDlp e).1).ok = true ∧
      ((runYtDlp e).1).filename =
        some ("/downloads/" ++ encodeURIComponent b.1) ∧
      (∀ x, candidatesOf e.jobId files = [x] → b = x) := by
  obtain ⟨b, hb⟩ : ∃ b, selectLargest (candidatesOf e.jobId files) = some b := by
    cases hc : candidatesOf e.jobId files with
    | nil => exact absurd hc h4
    | cons x xs => exact hc ▸ selectLargest_cons x xs
  refine ⟨b, selectLargest_mem _ b hb, selectLargest_le _ b hb, ?_, ?_, ?_⟩
  · simp [runYtDlp, h1, h2, findCandidate, h3, hb]
  · simp [runYtDlp, h1, findCandidate, h3, hb]
  · intro x hx
    rw [hx] at hb
    simp [selectLargest] at hb
    exact hb.symm

/-- C3: files ending in the .part suffix are never candidates: if every
identifier-prefixed file in the scanned listing ends in .part, the outcome
has ok = false and a null filename, whatever the exit code. -/
theorem part_files_never_selected (e : JobEnv) (files : List (String × Nat))
    (h1 : e.spawnErr = none) (h3 : e.dir = some files)
    (h : ∀ fe ∈ files, strStarts fe.1 (e.jobId ++ " - ") = true →
      strEnds fe.1 ".part" = true) :
    ((runYtDlp e).1).ok = false ∧ ((runYtDlp e).1).filename = none := by
  have hcand : candidatesOf e.jobId files = [] := by
    rw [candidatesOf, List.filter_eq_nil_iff]
    intro fe hfe
    simp only [Bool.and_eq_true, Bool.not_eq_true', not_and]
    intro hstart
    exact (h fe hfe hstart).symm ▸ fun hfalse => by simp_all
  constructor <;> simp [runYtDlp, h1, findCandidate, h3, hcand, selectLargest]

/-- C4: for a valid batch of 1 to 15 links, the loop returns one record per
input link, in input order (record i carries link i), and no record of the
transient started form survives in the returned list. -/
theorem batch_results_aligned (links : List String) (envs : Nat → JobEnv)
    (hlo : 1 ≤ links.length) (hhi : links.length ≤ 15) :
    (processLinks links envs).1.length = links.length ∧
    ∀ i, i < links.length → ∃ link r,
      links.get? i = some link ∧
      (processLinks links envs).1.get? i = some r ∧
      r.linkOf = link ∧ r.isStarted = false := by
  have hp : (processLinks links envs).1 = resultsSpec envs links 0 := by
    simp [processLinks, processFrom_eq]
  constructor
  · rw [hp, resultsSpec_length]
  · intro i hi
    refine ⟨links.get ⟨i, hi⟩, resultOf (links.get ⟨i, hi⟩) (envs i),
      List.get?_eq_get hi, ?_, resultOf_linkOf _ _, resultOf_not_started _ _⟩
    rw [hp, resultsSpec_get, List.get?_eq_get hi]
    simp

/-- C5 counterexample: on a spawn failure with empty captured streams, the
per-link error text is the template rendering exitCode undefined, not the
underlying spawn error message carried by the outcome's err property. -/
theorem spawn_error_message_not_surfaced :
    resultOf "https://youtu.be/x" envC5 =
      LinkResult.failed "https://youtu.be/x" "exitCode undefined" ∧
    ((runYtDlp envC5).1).err = some "spawn yt-dlp ENOENT" ∧
    LinkResult.failed "https://youtu.be/x" "exitCode undefined" ≠
      LinkResult.failed "https://youtu.be/x" "spawn yt-dlp ENOENT" := by
  decide

/-- C5 amended: on spawn failure the resolved outcome is not ok, its err
property (not surfaced to the caller) holds the spawn error message, it has
no exit-code property, and the per-link record is the failed form whose
error text is stderr, else stdout, else exitCode undefined; the close
handler still performs one directory scan for the job, whose result is
discarded because the promise has already settled. -/
theorem spawn_error_outcome (e : JobEnv) (m : String) (link : String)
    (hm : e.spawnErr = some m) (hl : hasYoutu link = true) :
    ((runYtDlp e).1).ok = false ∧
    ((runYtDlp e).1).err = some (if m == "" then "yt-dlp spawn error" else m) ∧
    ((runYtDlp e).1).exitCode = none ∧
    (runYtDlp e).2 = 1 ∧
    resultOf link e = LinkResult.failed link
      (if e.stderr == "" then
        (if e.stdout == "" then "exitCode undefined" else e.stdout)
       else e.stderr) := by
  refine ⟨?_, ?_, ?_, ?_, ?_⟩ <;>
    simp [runYtDlp, hm, resultOf, hl, errText, exitCodeText]

/-- C6: when the subprocess closes with a nonzero exit code, the per-link
record is the failed form and its error text is stderr when nonempty, else
stdout when nonempty, else the exit code rendered as text. -/
theorem nonzero_exit_error_text (link : String) (e : JobEnv)
    (hl : hasYoutu link = true) (hs : e.spawnErr = none) (hc : e.exitCode ≠ 0) :
    resultOf link e = LinkResult.failed link
      (if e.stderr == "" then
        (if e.stdout == "" then "exitCode " ++ toString e.exitCode else e.stdout)
       else e.stderr) := by
  have hb : (e.exitCode == 0) = false := by simp [hc]
  simp [resultOf, hl, runYtDlp, hs, hb, errText, exitCodeText]

/-- C7: a batch whose effective links list is empty (also when the field is
missing or not an array) or longer than 15 is answered with status 400 and a
message, with no results list and zero subprocess spawns. -/
theorem invalid_batch_rejected (body : Option (List JsVal)) (envs : Nat → JobEnv)
    (h : effLinks body = [] ∨ 15 < (effLinks body).length) :
    (apiDownload body envs).resp.status = 400 ∧
    ((apiDownload body envs).resp.message).isSome = true ∧
    (apiDownload body envs).resp.results = none ∧
    (apiDownload body envs).spawns = 0 := by
  rcases h with h | h
  · simp [apiDownload, h]
  · have h0 : ¬ (effLinks body).length = 0 := by omega
    simp [apiDownload, h0, h]

/-- C8 counterexample: a link failing the platform-shape check is recorded
with the message Basic validation failed: not a YouTube link (and no spawn),
not with the message not a valid link. -/
theorem validation_message_differs :
    processLinks ["http://example.com/v"] envs0 =
      ([LinkResult.invalid "http://example.com/v"
          "Basic validation failed: not a YouTube link"], 0) ∧
    LinkResult.invalid "http://example.com/v"
        "Basic validation failed: not a YouTube link" ≠
      LinkResult.invalid "http://example.com/v" "not a valid link" := by
  decide

/-- C8 amended: a link without the youtu substring (case-insensitively) gets
no subprocess: the loop appends the invalid record with message Basic
validation failed: not a YouTube link, leaves the spawn count unchanged, and
continues with the remaining links. -/
theorem invalid_link_skipped (link : String) (envs : Nat → JobEnv)
    (rest : List String) (i : Nat) (acc : List LinkResult) (c : Nat)
    (h : hasYoutu link = false) :
    processFrom envs (link :: rest) i acc c =
      processFrom envs rest (i + 1)
        (acc ++ [LinkResult.invalid link
          "Basic validation failed: not a YouTube link"]) c := by
  simp [processFrom, h]

/-- C9 counterexample: with nonempty stdout and stderr and a failing exit
code, the error message shown is the stderr buffer alone, which differs from
the concatenation of the two streams in either order. -/
theorem diagnostic_not_concatenation :
    resultOf "https://youtu.be/x" envC9 = LinkResult.failed "https://youtu.be/x" "ERR" ∧
    ("ERR" : String) ≠ envC9.stdout ++ envC9.stderr ∧
    ("ERR" : String) ≠ envC9.stderr ++ envC9.stdout := by
  decide

/-- C9 amended: every outcome carries the two captured streams separately
(both always present), and on failure the error message is stderr when
nonempty, else stdout when nonempty, else the exit-code text, not the
concatenation of the streams. -/
theorem streams_kept_and_fallback_used (e : JobEnv) (link : String)
    (hl : hasYoutu link = true) :
    ((runYtDlp e).1).stdout = e.stdout ∧
    ((runYtDlp e).1).stderr = e.stderr ∧
    (((runYtDlp e).1).ok = false →
      resultOf link e = LinkResult.failed link
        (if ((runYtDlp e).1).stderr == "" then
          (if ((runYtDlp e).1).stdout == "" then
            "exitCode " ++ exitCodeText ((runYtDlp e).1).exitCode
           else ((runYtDlp e).1).stdout)
         else ((runYtDlp e).1).stderr)) := by
  refine ⟨?_, ?_, ?_⟩
  · cases hs : e.spawnErr <;> simp [runYtDlp, hs]
  · cases hs : e.spawnErr <;> simp [runYtDlp, hs]
  · intro hok
    simp [resultOf, hl, hok, errText]

/-- C10: the emptiness and max-15 checks are applied to the coerced,
empty-string-filtered links list: any body whose effective list is nonempty
and of length at most 15 is accepted with status 200, and the results list
has exactly the effective list's length (which can be below the submitted
array's length). -/
theorem checks_after_coercion_filter (body : Option (List JsVal))
    (envs : Nat → JobEnv)
    (h1 : effLinks body ≠ []) (h2 : (effLinks body).length ≤ 15) :
    (apiDownload body envs).resp.status = 200 ∧
    (apiDownload body envs).resp.results =
      some (processLinks (effLinks body) envs).1 ∧
    (processLinks (effLinks body) envs).1.length = (effLinks body).length := by
  have h0 : ¬ (effLinks body).length = 0 := by
    intro h0
    exact h1 (List.length_eq_zero.mp h0)
  have h15 : ¬ 15 < (effLinks body).length := by omega
  refine ⟨?_, ?_, ?_⟩
  · simp [apiDownload, h0, h15]
  · simp [apiDownload, h0, h15]
  · have hp : (processLinks (effLinks body) envs).1 =
        resultsSpec envs (effLinks body) 0 := by
      simp [processLinks, processFrom_eq]
    rw [hp, resultsSpec_length]

/-- C2 witness: with two complete candidates of sizes 5 and 9, an unrelated
file and a 99-byte partial file, the outcome points at the 9-byte candidate. -/
theorem largest_candidate_selected_witness :
    envC2.spawnErr = none ∧ envC2.exitCode = 0 ∧ envC2.dir = some filesC2 ∧
    candidatesOf envC2.jobId filesC2 ≠ [] ∧
    (∃ b ∈ candidatesOf envC2.jobId filesC2,
      (∀ c ∈ candidatesOf envC2.jobId filesC2, c.2 ≤ b.2) ∧
      ((runYtDlp envC2).1).ok = true ∧
      ((runYtDlp envC2).1).filename =
        some ("/downloads/" ++ encodeURIComponent b.1) ∧
      (∀ x, candidatesOf envC2.jobId filesC2 = [x] → b = x)) :=
  ⟨rfl, rfl, rfl, by decide,
    largest_candidate_selected envC2 filesC2 rfl rfl rfl (by decide)⟩

/-- C3 witness: the only identifier-prefixed file ends in .part, so the
outcome is not ok and carries no filename. -/
theorem part_files_never_selected_witness :
    envC3.spawnErr = none ∧ envC3.dir = some filesC3 ∧
    (∀ fe ∈ filesC3, strStarts fe.1 (envC3.jobId ++ " - ") = true →
      strEnds fe.1 ".part" = true) ∧
    (((runYtDlp envC3).1).ok = false ∧ ((runYtDlp envC3).1).filename = none) :=
  ⟨rfl, rfl, by decide,
    part_files_never_selected envC3 filesC3 rfl rfl (by decide)⟩

/-- C4 witness: a two-link batch (one well-shaped link, one rejected link)
returns two ordered terminal records. -/
theorem batch_results_aligned_witness :
    1 ≤ (["https://youtu.be/a", "http://example.com/v"] : List String).length ∧
    (["https://youtu.be/a", "http://example.com/v"] : List String).length ≤ 15 ∧
    ((processLinks ["https://youtu.be/a", "http://example.com/v"] envs0).1.length =
        (["https://youtu.be/a", "http://example.com/v"] : List String).length ∧
      ∀ i, i < (["https://youtu.be/a", "http://example.com/v"] : List String).length →
        ∃ link r,
          (["https://youtu.be/a", "http://example.com/v"] : List String).get? i = some link ∧
          (processLinks ["https://youtu.be/a", "http://example.com/v"] envs0).1.get? i = some r ∧
          r.linkOf = link ∧ r.isStarted = false) :=
  ⟨by decide, by decide,
    batch_results_aligned ["https://youtu.be/a", "http://example.com/v"] envs0
      (by decide) (by decide)⟩

/-- C5 witness: the amended spawn-failure behaviour at the concrete ENOENT
environment. -/
theorem spawn_error_outcome_witness :
    envC5.spawnErr = some "spawn yt-dlp ENOENT" ∧
    hasYoutu "https://youtu.be/x" = true ∧
    (((runYtDlp envC5).1).ok = false ∧
     ((runYtDlp envC5).1).err =
       some (if "spawn yt-dlp ENOENT" == "" then "yt-dlp spawn error"
             else "spawn yt-dlp ENOENT") ∧
     ((runYtDlp envC5).1).exitCode = none ∧
     (runYtDlp envC5).2 = 1 ∧
     resultOf "https://youtu.be/x" envC5 = LinkResult.failed "https://youtu.be/x"
       (if envC5.stderr == "" then
         (if envC5.stdout == "" then "exitCode undefined" else envC5.stdout)
        else envC5.stderr)) :=
  ⟨rfl, by decide,
    spawn_error_outcome envC5 "spawn yt-dlp ENOENT" "https://youtu.be/x"
      rfl (by decide)⟩

/-- C6 witness: exit code 1 with stderr boom yields the failed record with
error text boom. -/
theorem nonzero_exit_error_text_witness :
    hasYoutu "https://youtu.be/x" = true ∧ envC6.spawnErr = none ∧
    envC6.exitCode ≠ 0 ∧
    resultOf "https://youtu.be/x" envC6 = LinkResult.failed "https://youtu.be/x"
      (if envC6.stderr == "" then
        (if envC6.stdout == "" then "exitCode " ++ toString envC6.exitCode
         else envC6.stdout)
       else envC6.stderr) :=
  ⟨by decide, rfl, by decide,
    nonzero_exit_error_text "https://youtu.be/x" envC6 (by decide) rfl (by decide)⟩

/-- C7 witness: sixteen nonempty links are rejected with 400, no results and
zero spawns. -/
theorem invalid_batch_rejected_witness :
    (effLinks body16plus = [] ∨ 15 < (effLinks body16plus).length) ∧
    ((apiDownload body16plus envs0).resp.status = 400 ∧
     ((apiDownload body16plus envs0).resp.message).isSome = true ∧
     (apiDownload body16plus envs0).resp.results = none ∧
     (apiDownload body16plus envs0).spawns = 0) :=
  ⟨Or.inr (by decide),
    invalid_batch_rejected body16plus envs0 (Or.inr (by decide))⟩

/-- C8 witness: the amended skip behaviour at a concrete non-YouTube link
followed by one more link. -/
theorem invalid_link_skipped_witness :
    hasYoutu "http://example.com/v" = false ∧
    processFrom envs0 ["http://example.com/v", "https://youtu.be/a"] 0 [] 0 =
      processFrom envs0 ["https://youtu.be/a"] (0 + 1)
        ([] ++ [LinkResult.invalid "http://example.com/v"
          "Basic validation failed: not a YouTube link"]) 0 :=
  ⟨by decide,
    invalid_link_skipped "http://example.com/v" envs0 ["https://youtu.be/a"]
      0 [] 0 (by decide)⟩

/-- C9 witness: the amended stream-preservation and fallback behaviour at the
concrete OUT/ERR environment. -/
theorem streams_kept_and_fallback_used_witness :
    hasYoutu "https://youtu.be/x" = true ∧
    (((runYtDlp envC9).1).stdout = envC9.stdout ∧
     ((runYtDlp envC9).1).stderr = envC9.stderr ∧
     (((runYtDlp envC9).1).ok = false →
       resultOf "https://youtu.be/x" envC9 = LinkResult.failed "https://youtu.be/x"
         (if ((runYtDlp envC9).1).stderr == "" then
           (if ((runYtDlp envC9).1).stdout == "" then
             "exitCode " ++ exitCodeText ((runYtDlp envC9).1).exitCode
            else ((runYtDlp envC9).1).stdout)
          else ((runYtDlp envC9).1).stderr))) :=
  ⟨by decide, streams_kept_and_fallback_used envC9 "https://youtu.be/x" (by decide)⟩

/-- C10 witness: a submitted array of 16 entries one of which is the empty
string passes validation as 15 effective links and yields 15 results. -/
theorem checks_after_coercion_filter_witness :
    effLinks body16 ≠ [] ∧ (effLinks body16).length ≤ 15 ∧
    ((body16.getD []).length = 16 ∧ (effLinks body16).length = 15) ∧
    ((apiDownload body16 envs0).resp.status = 200 ∧
     (apiDownload body16 envs0).resp.results =
       some (processLinks (effLinks body16) envs0).1 ∧
     (processLinks (effLinks body16) envs0).1.length = (effLinks body16).length) :=
  ⟨by decide, by decide, by decide,
    checks_after_coercion_filter body16 envs0 (by decide) (by decide)⟩

end Downloader
